import Mathlib

/-!
Verification of the Anonymous-Copyright registry state machine.

The repository ships documentation, a test suite and scaffolding for a single
smart contract (`AnonymousCopyright`) implementing a copyright-registration
workflow.  The contract source itself is not part of the shipped files; the
definitions below are therefore modelled from the specification of the
Copyright Registry State Machine (data model, operations, error taxonomy),
cross-checked against the test suite listed in DEVELOPER_GUIDE.md and the
code fragments in ARCHITECTURE.md (modifier-based access control, input
validation, mapping-based storage).

Addresses and opaque encrypted handles are modelled as natural numbers; the
registry logic never inspects a handle beyond storing it and comparing it for
equality, so this is faithful to the opaque-handle interface of the spec.
-/

/-- Modelled from the spec: the error taxonomy of section 7.  The contract
source is missing from the shipped files; every failure of an operation is a
synchronous rejection carrying one of these named conditions. -/
inductive RegError where
  | AlreadyRegistered
  | AuthorNotRegistered
  | TitleRequired
  | CategoryRequired
  | InvalidWorkId
  | InvalidDisputeIndex
  | NotAuthorized
  | CannotDisputeOwnWork
  | AlreadyResolved
deriving DecidableEq, Repr

/-- Modelled from the spec: the `AuthorProfile` entity, keyed by caller
address.  Counters are mutated by work/dispute operations. -/
structure AuthorProfile where
  registered : Bool
  encryptedAuthorId : Nat
  workCount : Nat
  totalDisputes : Nat
  wonDisputes : Nat
deriving DecidableEq, Repr

/-- Modelled from the spec: the `Work` entity, keyed by a monotonically
increasing integer id starting at 1. -/
structure Work where
  registrant : Nat
  encryptedContentHash : Nat
  title : String
  category : String
  timestamp : Nat
  verified : Bool
  disputeCount : Nat
deriving DecidableEq, Repr

/-- Modelled from the spec: the `Dispute` entity, keyed by
`(workId, disputeIndex)` with a 0-based per-work index.  `winner` is only
meaningful once `resolved` is true; the unset value is 0. -/
structure Dispute where
  challenger : Nat
  challengerContentHash : Nat
  timestamp : Nat
  resolved : Bool
  winner : Nat
deriving DecidableEq, Repr

/-- The all-zero, unregistered author profile: the default value of the
Solidity `authors` mapping. -/
def defaultProfile : AuthorProfile :=
  { registered := false, encryptedAuthorId := 0, workCount := 0
    totalDisputes := 0, wonDisputes := 0 }

/-- The default value of the Solidity `works` mapping. -/
def defaultWork : Work :=
  { registrant := 0, encryptedContentHash := 0, title := "", category := ""
    timestamp := 0, verified := false, disputeCount := 0 }

/-- The default value used when reading a dispute list out of range. -/
def defaultDispute : Dispute :=
  { challenger := 0, challengerContentHash := 0, timestamp := 0
    resolved := false, winner := 0 }

/-- Modelled from the spec: the singleton registry state.  Solidity mappings
are total functions with a zero default, modelled as Lean functions.
`pendingRequests` is the pending-operation table of the two-phase dispute
resolution (design note of section 9). -/
structure Registry where
  owner : Nat
  workCounter : Nat
  works : Nat → Work
  disputes : Nat → List Dispute
  authors : Nat → AuthorProfile
  authorWorks : Nat → List Nat
  pendingRequests : List (Nat × Nat)

/-- Pointwise update of a mapping at one key. -/
def upd {α : Type} (m : Nat → α) (k : Nat) (v : α) : Nat → α :=
  fun x => if x = k then v else m x

/-- A work id is valid when it has been previously assigned: ids are handed
out consecutively starting at 1, so the assigned ids are `1..workCounter`. -/
def validWorkId (s : Registry) (wid : Nat) : Prop :=
  1 ≤ wid ∧ wid ≤ s.workCounter

instance (s : Registry) (wid : Nat) : Decidable (validWorkId s wid) := by
  unfold validWorkId; infer_instance

/-- Modelled from the spec: `registerAuthor`.  Fails with `AlreadyRegistered`
when the caller already holds a registered profile; otherwise stores the
encrypted author id and a fresh profile with zeroed counters. -/
def registerAuthor (s : Registry) (caller authorId : Nat) :
    Except RegError Registry :=
  if (s.authors caller).registered then
    .error .AlreadyRegistered
  else
    let p : AuthorProfile :=
      { registered := true, encryptedAuthorId := authorId
        workCount := 0, totalDisputes := 0, wonDisputes := 0 }
    .ok { s with authors := upd s.authors caller p }

/-- Modelled from the spec: `registerWork`.  The registered-author guard is a
modifier and runs first (ARCHITECTURE.md access-control pattern), then the
title and category validations; on success the next work id is assigned, the
work stored, the id appended to the caller's work list, and the caller's
`workCount` and the global `workCounter` incremented. -/
def registerWork (s : Registry) (caller contentHash : Nat)
    (title category : String) (time : Nat) :
    Except RegError (Registry × Nat) :=
  if ¬ (s.authors caller).registered then
    .error .AuthorNotRegistered
  else if title = "" then
    .error .TitleRequired
  else if category = "" then
    .error .CategoryRequired
  else
    let wid := s.workCounter + 1
    let w : Work :=
      { registrant := caller, encryptedContentHash := contentHash
        title := title, category := category, timestamp := time
        verified := false, disputeCount := 0 }
    let p := s.authors caller
    .ok ({ s with
            workCounter := wid
            works := upd s.works wid w
            authorWorks := upd s.authorWorks caller (s.authorWorks caller ++ [wid])
            authors := upd s.authors caller { p with workCount := p.workCount + 1 } },
         wid)

/-- Modelled from the spec: `markWorkAsVerified`.  Owner-only (the
`onlyOwner` modifier runs first), then the work id validation; sets the
`verified` flag of the work. -/
def markWorkAsVerified (s : Registry) (caller wid : Nat) :
    Except RegError Registry :=
  if caller ≠ s.owner then
    .error .NotAuthorized
  else if ¬ validWorkId s wid then
    .error .InvalidWorkId
  else
    .ok { s with works := upd s.works wid { s.works wid with verified := true } }

/-- Modelled from the spec: `fileDispute`.  Registered-author guard first,
then work id validation, then the own-work business rule; on success a fresh
unresolved dispute is appended to the work's dispute list, the work's
`disputeCount` is incremented, and `totalDisputes` is incremented on both the
challenger's and the registrant's profiles.  Returns the 0-based index of the
new dispute. -/
def fileDispute (s : Registry) (caller wid challengerHash time : Nat) :
    Except RegError (Registry × Nat) :=
  if ¬ (s.authors caller).registered then
    .error .AuthorNotRegistered
  else if ¬ validWorkId s wid then
    .error .InvalidWorkId
  else if caller = (s.works wid).registrant then
    .error .CannotDisputeOwnWork
  else
    let w := s.works wid
    let d : Dispute :=
      { challenger := caller, challengerContentHash := challengerHash
        timestamp := time, resolved := false, winner := 0 }
    let idx := (s.disputes wid).length
    let pc := s.authors caller
    let authors1 := upd s.authors caller { pc with totalDisputes := pc.totalDisputes + 1 }
    let pr := authors1 w.registrant
    let authors2 := upd authors1 w.registrant { pr with totalDisputes := pr.totalDisputes + 1 }
    .ok ({ s with
            disputes := upd s.disputes wid (s.disputes wid ++ [d])
            works := upd s.works wid { w with disputeCount := w.disputeCount + 1 }
            authors := authors2 },
         idx)

/-- Modelled from the spec: phase 1 of `resolveDispute`.  Owner-only, both
ids must be valid, and the dispute must not already be resolved; the phase
itself only requests an asynchronous decrypted comparison, recorded in the
pending-request table, and mutates no entity. -/
def resolveDispute (s : Registry) (caller wid idx : Nat) :
    Except RegError Registry :=
  if caller ≠ s.owner then
    .error .NotAuthorized
  else if ¬ validWorkId s wid then
    .error .InvalidWorkId
  else if (s.disputes wid).length ≤ idx then
    .error .InvalidDisputeIndex
  else if ((s.disputes wid).getD idx defaultDispute).resolved then
    .error .AlreadyResolved
  else
    .ok { s with pendingRequests := s.pendingRequests ++ [(wid, idx)] }

/-- Modelled from the spec: phase 2 of `resolveDispute`, the decryption
callback.  Marks the dispute resolved; when the decrypted comparison is true
the challenger wins: `winner` is set to the challenger and the challenger's
`wonDisputes` is incremented (the mismatch winner policy is an open question
of the spec and nothing is awarded then). -/
def resolveDisputeCallback (s : Registry) (wid idx : Nat) (matched : Bool) :
    Except RegError Registry :=
  if (s.disputes wid).length ≤ idx then
    .error .InvalidDisputeIndex
  else
    let d := (s.disputes wid).getD idx defaultDispute
    let d1 := { d with resolved := true, winner := if matched then d.challenger else d.winner }
    let s1 := { s with disputes := upd s.disputes wid ((s.disputes wid).set idx d1) }
    if matched then
      let p := s1.authors d.challenger
      let p1 := { p with wonDisputes := p.wonDisputes + 1 }
      .ok { s1 with authors := upd s1.authors d.challenger p1 }
    else
      .ok s1

/-- View: `getTotalWorks` returns the global work counter. -/
def getTotalWorks (s : Registry) : Nat :=
  s.workCounter

/-- View: `getDisputeCount` returns the length of the work's dispute list. -/
def getDisputeCount (s : Registry) (wid : Nat) : Nat :=
  (s.disputes wid).length

/-- View: `isRegisteredAuthor`. -/
def isRegisteredAuthor (s : Registry) (addr : Nat) : Bool :=
  (s.authors addr).registered

/-- View: `getAuthorWorks` returns the list of work ids of an author. -/
def getAuthorWorks (s : Registry) (addr : Nat) : List Nat :=
  s.authorWorks addr

/-- The non-sensitive projection of a work returned by `getWorkInfo`; the
`disputed` flag reports whether any dispute has been filed against the
work. -/
structure WorkInfo where
  registrant : Nat
  title : String
  category : String
  timestamp : Nat
  verified : Bool
  disputed : Bool
  disputeCount : Nat
deriving DecidableEq, Repr

/-- View: `getWorkInfo`; fails with `InvalidWorkId` on an unassigned id. -/
def getWorkInfo (s : Registry) (wid : Nat) : Except RegError WorkInfo :=
  if ¬ validWorkId s wid then
    .error .InvalidWorkId
  else
    let w := s.works wid
    .ok { registrant := w.registrant, title := w.title, category := w.category
          timestamp := w.timestamp, verified := w.verified
          disputed := decide (0 < (s.disputes wid).length)
          disputeCount := w.disputeCount }

/-- View: `getDisputeInfo`; fails on an invalid work id or dispute index. -/
def getDisputeInfo (s : Registry) (wid idx : Nat) : Except RegError Dispute :=
  if ¬ validWorkId s wid then
    .error .InvalidWorkId
  else if (s.disputes wid).length ≤ idx then
    .error .InvalidDisputeIndex
  else
    .ok ((s.disputes wid).getD idx defaultDispute)

/-- View: `getAuthorStats` returns the caller-visible profile counters. -/
def getAuthorStats (s : Registry) (addr : Nat) : Bool × Nat × Nat × Nat :=
  let p := s.authors addr
  (p.registered, p.workCount, p.totalDisputes, p.wonDisputes)

/-- The registry state at deployment: the deployer is the owner, the counter
is 0 and every mapping holds its default value. -/
def initRegistry (deployer : Nat) : Registry :=
  { owner := deployer, workCounter := 0
    works := fun _ => defaultWork
    disputes := fun _ => []
    authors := fun _ => defaultProfile
    authorWorks := fun _ => []
    pendingRequests := [] }

/-- One submitted transaction against the registry: the operation name with
its caller and arguments (the callback carries no caller, it is invoked by
the encrypted-computation service). -/
inductive Op where
  | opRegisterAuthor (caller authorId : Nat)
  | opRegisterWork (caller contentHash : Nat) (title category : String) (time : Nat)
  | opMarkVerified (caller wid : Nat)
  | opFileDispute (caller wid challengerHash time : Nat)
  | opResolveDispute (caller wid idx : Nat)
  | opCallback (wid idx : Nat) (matched : Bool)

/-- All-or-nothing commit: a failed operation leaves the state untouched. -/
def commit (s : Registry) : Except RegError Registry → Registry
  | .ok s1 => s1
  | .error _ => s

/-- All-or-nothing commit for operations that also return a value. -/
def commitFst (s : Registry) : Except RegError (Registry × Nat) → Registry
  | .ok p => p.1
  | .error _ => s

/-- The transition function of the registry state machine: each transaction
either fully commits or fully reverts. -/
def applyOp (s : Registry) : Op → Registry
  | .opRegisterAuthor c a => commit s (registerAuthor s c a)
  | .opRegisterWork c h t cat tm => commitFst s (registerWork s c h t cat tm)
  | .opMarkVerified c wid => commit s (markWorkAsVerified s c wid)
  | .opFileDispute c wid h tm => commitFst s (fileDispute s c wid h tm)
  | .opResolveDispute c wid idx => commit s (resolveDispute s c wid idx)
  | .opCallback wid idx m => commit s (resolveDisputeCallback s wid idx m)

/-- Replaying a list of transactions in submission order. -/
def applyOps (s : Registry) (ops : List Op) : Registry :=
  ops.foldl applyOp s

/-- A state is reachable when it arises from some deployment by some finite
sequence of transactions. -/
def Reachable (s : Registry) : Prop :=
  ∃ deployer ops, s = applyOps (initRegistry deployer) ops

/-! ### Basic lemmas about mapping updates and commits -/

theorem upd_self {α : Type} (m : Nat → α) (k : Nat) (v : α) : upd m k v k = v := by
  simp [upd]

theorem upd_ne {α : Type} (m : Nat → α) (k x : Nat) (v : α) (h : x ≠ k) :
    upd m k v x = m x := by
  simp [upd, h]

/-! ### Claim theorems -/

/-- Claim C1: a registered author calling registerWork with a non-empty title
and category always succeeds, the returned work id is the previously-unused
id workCounter + 1, strictly greater than every previously assigned id (and
equal to 1 for the first work), and getTotalWorks grows by exactly 1. -/
theorem registerWork_fresh_increasing_id
    (s : Registry) (caller contentHash : Nat) (title category : String) (time : Nat)
    (hreg : (s.authors caller).registered = true)
    (ht : ¬ title = "") (hc : ¬ category = "") :
    ∃ s1,
      registerWork s caller contentHash title category time
        = Except.ok (s1, s.workCounter + 1)
      ∧ getTotalWorks s1 = getTotalWorks s + 1
      ∧ ¬ validWorkId s (s.workCounter + 1)
      ∧ validWorkId s1 (s.workCounter + 1)
      ∧ (∀ w, validWorkId s w → w < s.workCounter + 1)
      ∧ (getTotalWorks s = 0 → s.workCounter + 1 = 1) := by
  unfold registerWork
  rw [if_neg (by simp [hreg]), if_neg ht, if_neg hc]
  refine ⟨_, rfl, ?_, ?_, ?_, ?_, ?_⟩ <;>
    simp [getTotalWorks, validWorkId] <;> omega

/-- Claim C3 counterexample: an unregistered caller submitting an empty title
is rejected with AuthorNotRegistered, not TitleRequired — the
registered-author guard runs before the title validation. -/
theorem registerWork_empty_title_cex :
    registerWork (initRegistry 0) 1 5 "" "Art" 0
      = Except.error RegError.AuthorNotRegistered
    ∧ registerWork (initRegistry 0) 1 5 "" "Art" 0
      ≠ Except.error RegError.TitleRequired := by
  refine ⟨rfl, ?_⟩
  intro h
  have h2 : (Except.error RegError.AuthorNotRegistered :
      Except RegError (Registry × Nat)) = Except.error RegError.TitleRequired :=
    (rfl : registerWork (initRegistry 0) 1 5 "" "Art" 0
      = Except.error RegError.AuthorNotRegistered).symm.trans h
  simp at h2

/-- Claim C3 (amended to registered callers): for every registered caller and
every contentHash and category, registerWork with an empty title fails with
TitleRequired and commits no state, so getTotalWorks is unchanged. -/
theorem registerWork_empty_title_TitleRequired
    (s : Registry) (caller contentHash time : Nat) (category : String)
    (hreg : (s.authors caller).registered = true) :
    registerWork s caller contentHash "" category time
      = Except.error RegError.TitleRequired
    ∧ applyOp s (.opRegisterWork caller contentHash "" category time) = s
    ∧ getTotalWorks (applyOp s (.opRegisterWork caller contentHash "" category time))
        = getTotalWorks s := by
  have h1 : registerWork s caller contentHash "" category time
      = Except.error RegError.TitleRequired := by
    unfold registerWork
    rw [if_neg (by simp [hreg]), if_pos rfl]
  have h2 : applyOp s (.opRegisterWork caller contentHash "" category time) = s := by
    simp [applyOp, h1, commitFst]
  exact ⟨h1, h2, by rw [h2]⟩

/-- Claim C6: for every valid work id, markWorkAsVerified called by any
address other than the registry owner fails with NotAuthorized, the failed
transaction leaves the state untouched, and the verified flag of the work is
unchanged (in particular it stays false when it was false). -/
theorem markVerified_nonowner_NotAuthorized
    (s : Registry) (caller wid : Nat)
    (hv : validWorkId s wid) (hc : caller ≠ s.owner) :
    markWorkAsVerified s caller wid = Except.error RegError.NotAuthorized
    ∧ applyOp s (.opMarkVerified caller wid) = s
    ∧ getWorkInfo (applyOp s (.opMarkVerified caller wid)) wid = getWorkInfo s wid
    ∧ ((s.works wid).verified = false →
        ((applyOp s (.opMarkVerified caller wid)).works wid).verified = false) := by
  have h1 : markWorkAsVerified s caller wid = Except.error RegError.NotAuthorized := by
    unfold markWorkAsVerified
    rw [if_pos hc]
  have h2 : applyOp s (.opMarkVerified caller wid) = s := by
    simp [applyOp, h1, commit]
  exact ⟨h1, h2, by rw [h2], fun hf => by rw [h2]; exact hf⟩

/-- Claim C7: a registered author filing a dispute against a work they
registered themselves is rejected with CannotDisputeOwnWork, the transaction
commits nothing, and no dispute record is created. -/
theorem fileDispute_own_work_CannotDispute
    (s : Registry) (caller wid hsh t : Nat)
    (hreg : (s.authors caller).registered = true)
    (hv : validWorkId s wid)
    (hown : (s.works wid).registrant = caller) :
    fileDispute s caller wid hsh t = Except.error RegError.CannotDisputeOwnWork
    ∧ applyOp s (.opFileDispute caller wid hsh t) = s
    ∧ getDisputeCount (applyOp s (.opFileDispute caller wid hsh t)) wid
        = getDisputeCount s wid := by
  have h1 : fileDispute s caller wid hsh t
      = Except.error RegError.CannotDisputeOwnWork := by
    unfold fileDispute
    rw [if_neg (by simp [hreg]), if_neg (by simp [hv])]
    simp [hown]
  have h2 : applyOp s (.opFileDispute caller wid hsh t) = s := by
    simp [applyOp, h1, commitFst]
  exact ⟨h1, h2, by rw [h2]⟩

/-- Claim C10: registerWork stores title and category verbatim — after any
successful registration, getWorkInfo on the returned id yields exactly the
strings that were passed in. -/
theorem registerWork_title_category_roundtrip
    (s s1 : Registry) (caller hsh t wid : Nat) (title category : String)
    (hok : registerWork s caller hsh title category t = Except.ok (s1, wid)) :
    (getWorkInfo s1 wid).map WorkInfo.title = Except.ok title
    ∧ (getWorkInfo s1 wid).map WorkInfo.category = Except.ok category := by
  unfold registerWork at hok
  split_ifs at hok with h1 h2 h3
  simp only [Except.ok.injEq, Prod.mk.injEq] at hok
  obtain ⟨hs, hw⟩ := hok
  subst hs
  subst hw
  have hval : validWorkId
      { s with
        workCounter := s.workCounter + 1
        works := upd s.works (s.workCounter + 1)
          { registrant := caller, encryptedContentHash := hsh
            title := title, category := category, timestamp := t
            verified := false, disputeCount := 0 }
        authorWorks := upd s.authorWorks caller
          (s.authorWorks caller ++ [s.workCounter + 1])
        authors := upd s.authors caller
          { s.authors caller with workCount := (s.authors caller).workCount + 1 } }
      (s.workCounter + 1) := by
    constructor <;> simp
  unfold getWorkInfo
  rw [if_neg (by simpa using hval)]
  simp only [upd_self]
  exact ⟨rfl, rfl⟩

/-! ### Monotonicity of author registration and dispute resolution -/

/-- The profile stored by a successful registerAuthor call. -/
def freshProfile (authorId : Nat) : AuthorProfile :=
  { registered := true, encryptedAuthorId := authorId
    workCount := 0, totalDisputes := 0, wonDisputes := 0 }

theorem registered_mono_op (s : Registry) (op : Op) (a : Nat)
    (h : (s.authors a).registered = true) :
    ((applyOp s op).authors a).registered = true := by
  cases op with
  | opRegisterAuthor c aid =>
    simp only [applyOp]
    unfold registerAuthor
    split
    · exact h
    · simp only [commit, upd]
      split
      · rfl
      · exact h
  | opRegisterWork c hsh ttl cat tm =>
    simp only [applyOp]
    unfold registerWork
    split
    · exact h
    · split
      · exact h
      · split
        · exact h
        · simp only [commitFst, upd]
          split
          · rename_i hac
            simp_all
          · exact h
  | opMarkVerified c wid =>
    simp only [applyOp]
    unfold markWorkAsVerified
    split
    · exact h
    · split
      · exact h
      · exact h
  | opFileDispute c wid hsh tm =>
    simp only [applyOp, fileDispute]
    split_ifs <;>
      first
        | exact h
        | (simp only [commitFst, upd]; split_ifs <;> simp_all)
  | opResolveDispute c wid idx =>
    simp only [applyOp]
    unfold resolveDispute
    split_ifs <;> exact h
  | opCallback wid idx m =>
    simp only [applyOp]
    unfold resolveDisputeCallback
    split
    · exact h
    · split
      · simp only [commit, upd]
        split_ifs <;> simp_all
      · exact h

theorem registered_mono_ops (s : Registry) (ops : List Op) (a : Nat)
    (h : (s.authors a).registered = true) :
    ((applyOps s ops).authors a).registered = true := by
  induction ops generalizing s with
  | nil => exact h
  | cons op rest ih => exact ih _ (registered_mono_op s op a h)

/-- Claim C2: for every address, registerAuthor succeeds at most once — the
first call by an unregistered address succeeds, and every later call by the
same address (after any interleaved transactions) fails with
AlreadyRegistered while the address stays registered. -/
theorem registerAuthor_at_most_once
    (s : Registry) (a authorId : Nat)
    (h : (s.authors a).registered = false) :
    (∃ s1, registerAuthor s a authorId = Except.ok s1)
    ∧ (∀ s1, registerAuthor s a authorId = Except.ok s1 →
        (s1.authors a).registered = true
        ∧ ∀ ops authorId2,
            registerAuthor (applyOps s1 ops) a authorId2
              = Except.error RegError.AlreadyRegistered
            ∧ ((applyOps s1 ops).authors a).registered = true) := by
  have hok : registerAuthor s a authorId
      = Except.ok { s with authors := upd s.authors a (freshProfile authorId) } := by
    unfold registerAuthor
    rw [if_neg (by simp [h])]
    rfl
  refine ⟨⟨_, hok⟩, ?_⟩
  intro s1 hok1
  rw [hok] at hok1
  have hs1 := Except.ok.inj hok1
  subst hs1
  have hreg1 : ((upd s.authors a (freshProfile authorId)) a).registered = true := by
    simp [upd, freshProfile]
  refine ⟨hreg1, ?_⟩
  intro ops aid2
  have hmono := registered_mono_ops
    { s with authors := upd s.authors a (freshProfile authorId) } ops a hreg1
  refine ⟨?_, hmono⟩
  unfold registerAuthor
  rw [if_pos hmono]

/-- The resolved flag of the dispute stored at a given work id and dispute
index (false when the key is out of range). -/
def resolvedAt (s : Registry) (wid idx : Nat) : Bool :=
  ((s.disputes wid).getD idx defaultDispute).resolved

theorem resolvedAt_lt_length (s : Registry) (wid idx : Nat)
    (h : resolvedAt s wid idx = true) : idx < (s.disputes wid).length := by
  by_contra hlt
  push_neg at hlt
  rw [resolvedAt, List.getD_eq_default _ _ hlt] at h
  simp [defaultDispute] at h

theorem getD_set_self {α : Type} (l : List α) (i : Nat) (a d : α)
    (h : i < l.length) : (l.set i a).getD i d = a := by
  induction l generalizing i with
  | nil => simp at h
  | cons x xs ih =>
    cases i with
    | zero => simp
    | succ n => simpa [List.getD_cons_succ] using ih n (by simpa using h)

theorem getD_set_ne {α : Type} (l : List α) (i j : Nat) (a d : α)
    (h : j ≠ i) : (l.set i a).getD j d = l.getD j d := by
  induction l generalizing i j with
  | nil => simp
  | cons x xs ih =>
    cases i with
    | zero =>
      cases j with
      | zero => exact absurd rfl h
      | succ n => simp [List.getD_cons_succ]
    | succ m =>
      cases j with
      | zero => simp [List.getD_cons_zero]
      | succ n => simpa [List.getD_cons_succ] using ih m n (by omega)

theorem resolvedAt_mono_op (s : Registry) (op : Op) (wid idx : Nat)
    (h : resolvedAt s wid idx = true) :
    resolvedAt (applyOp s op) wid idx = true := by
  have hlen := resolvedAt_lt_length s wid idx h
  cases op with
  | opRegisterAuthor c aid =>
    simp only [applyOp, registerAuthor]
    split_ifs <;> exact h
  | opRegisterWork c hsh ttl cat tm =>
    simp only [applyOp, registerWork]
    split_ifs <;> exact h
  | opMarkVerified c w2 =>
    simp only [applyOp, markWorkAsVerified]
    split_ifs <;> exact h
  | opResolveDispute c w2 i2 =>
    simp only [applyOp, resolveDispute]
    split_ifs <;> exact h
  | opFileDispute c w2 hsh tm =>
    simp only [applyOp, fileDispute]
    split_ifs <;> try exact h
    simp only [commitFst, resolvedAt]
    by_cases hw : wid = w2
    · subst hw
      rw [upd_self, List.getD_append _ _ _ _ hlen]
      exact h
    · rw [upd_ne _ _ _ _ hw]
      exact h
  | opCallback w2 i2 m =>
    simp only [applyOp, resolveDisputeCallback]
    split_ifs <;> try exact h
    all_goals
      simp only [commit, resolvedAt]
      by_cases hw : wid = w2
      · subst hw
        rw [upd_self]
        by_cases hi : idx = i2
        · subst hi
          rw [getD_set_self _ _ _ _ hlen]
        · rw [getD_set_ne _ _ _ _ _ hi]
          exact h
      · rw [upd_ne _ _ _ _ hw]
        exact h

theorem resolvedAt_mono_ops (s : Registry) (ops : List Op) (wid idx : Nat)
    (h : resolvedAt s wid idx = true) :
    resolvedAt (applyOps s ops) wid idx = true := by
  induction ops generalizing s with
  | nil => exact h
  | cons op rest ih => exact ih _ (resolvedAt_mono_op s op wid idx h)

/-- A state in which work 1 carries one already-resolved dispute, used to
exhibit the behaviour of resolveDispute for non-owner callers. -/
def resolvedDemoS : Registry :=
  applyOps (initRegistry 0)
    [ .opRegisterAuthor 1 111
    , .opRegisterAuthor 2 222
    , .opRegisterWork 1 42 "Sunrise" "Music" 10
    , .opFileDispute 2 1 42 20
    , .opCallback 1 0 true ]

/-- Claim C5 counterexample: a resolveDispute call by a non-owner address on
an already-resolved dispute fails with NotAuthorized, not AlreadyResolved —
the owner guard runs before the resolution check. -/
theorem resolveDispute_nonowner_on_resolved_cex :
    resolvedAt resolvedDemoS 1 0 = true
    ∧ resolveDispute resolvedDemoS 99 1 0 = Except.error RegError.NotAuthorized
    ∧ resolveDispute resolvedDemoS 99 1 0 ≠ Except.error RegError.AlreadyResolved := by
  refine ⟨rfl, rfl, ?_⟩
  intro hcontra
  have h2 : (Except.error RegError.NotAuthorized : Except RegError Registry)
      = Except.error RegError.AlreadyResolved :=
    (rfl : resolveDispute resolvedDemoS 99 1 0
      = Except.error RegError.NotAuthorized).symm.trans hcontra
  simp at h2

/-- Claim C5 (amended: restricted to owner calls, since the owner guard runs
first and a non-owner call fails with NotAuthorized): a resolved dispute
stays resolved under every further sequence of transactions, and a
resolveDispute call by the owner targeting an already-resolved dispute fails
with AlreadyResolved and commits no state change. -/
theorem dispute_resolved_at_most_once
    (s : Registry) (wid idx : Nat)
    (hres : resolvedAt s wid idx = true) :
    (∀ ops, resolvedAt (applyOps s ops) wid idx = true)
    ∧ (validWorkId s wid →
        resolveDispute s s.owner wid idx = Except.error RegError.AlreadyResolved
        ∧ applyOp s (.opResolveDispute s.owner wid idx) = s) := by
  refine ⟨fun ops => resolvedAt_mono_ops s ops wid idx hres, fun hv => ?_⟩
  have hlen := resolvedAt_lt_length s wid idx hres
  have hres2 : ((s.disputes wid).getD idx defaultDispute).resolved = true := hres
  have h1 : resolveDispute s s.owner wid idx
      = Except.error RegError.AlreadyResolved := by
    unfold resolveDispute
    rw [if_neg (by simp), if_neg (by simp [hv]), if_neg (by omega), if_pos hres2]
  exact ⟨h1, by simp [applyOp, h1, commit]⟩

/-- Claim C4: whenever fileDispute succeeds, the dispute count of the work
grows by exactly 1 and the totalDisputes counter grows by exactly 1 on both
the challenger profile and the registrant profile. -/
theorem fileDispute_increments_counts
    (s s1 : Registry) (caller wid hsh t idx : Nat)
    (hok : fileDispute s caller wid hsh t = Except.ok (s1, idx)) :
    getDisputeCount s1 wid = getDisputeCount s wid + 1
    ∧ (s1.authors caller).totalDisputes = (s.authors caller).totalDisputes + 1
    ∧ (s1.authors (s.works wid).registrant).totalDisputes
        = (s.authors (s.works wid).registrant).totalDisputes + 1 := by
  unfold fileDispute at hok
  split_ifs at hok with h1 h2 h3
  simp only [Except.ok.injEq, Prod.mk.injEq] at hok
  obtain ⟨hs, hidx⟩ := hok
  subst hs
  refine ⟨?_, ?_, ?_⟩
  · simp [getDisputeCount, upd]
  · simp [upd, h3]
  · simp [upd, h3, Ne.symm h3]

/-- Claim C8: per-work disputes are indexed by a 0-based sequence — the
first successful dispute filed on work 1 gets index 0, getDisputeCount(1)
becomes 1, and getDisputeInfo(1, 0) shows the challenger and an unresolved
dispute. -/
theorem first_dispute_index_zero
    (s s1 : Registry) (b hsh t idx : Nat)
    (h0 : getDisputeCount s 1 = 0)
    (hok : fileDispute s b 1 hsh t = Except.ok (s1, idx)) :
    idx = 0
    ∧ getDisputeCount s1 1 = 1
    ∧ (getDisputeInfo s1 1 0).map Dispute.challenger = Except.ok b
    ∧ (getDisputeInfo s1 1 0).map Dispute.resolved = Except.ok false := by
  have hlen0 : (s.disputes 1).length = 0 := h0
  have hnil : s.disputes 1 = [] := List.length_eq_zero.mp hlen0
  unfold fileDispute at hok
  split_ifs at hok with h1 h2 h3
  simp only [Except.ok.injEq, Prod.mk.injEq] at hok
  obtain ⟨hs, hidx⟩ := hok
  subst hs
  refine ⟨by omega, ?_, ?_, ?_⟩
  · simp [getDisputeCount, upd, hlen0]
  · have hwc : 1 ≤ s.workCounter := h2.2
    unfold getDisputeInfo
    rw [if_neg (by simp [validWorkId]; omega)]
    simp [upd_self, hnil, Except.map]
  · have hwc : 1 ≤ s.workCounter := h2.2
    unfold getDisputeInfo
    rw [if_neg (by simp [validWorkId]; omega)]
    simp [upd_self, hnil, Except.map]

/-- The dispute-count bookkeeping invariant: the disputeCount stored on each
assigned work equals the length of its dispute list, and unassigned ids
carry no disputes. -/
def Wf (s : Registry) : Prop :=
  ∀ wid, (wid ≤ s.workCounter →
            (s.works wid).disputeCount = (s.disputes wid).length)
       ∧ (s.workCounter < wid → s.disputes wid = [])

theorem wf_init (deployer : Nat) : Wf (initRegistry deployer) := by
  intro wid
  constructor <;> intro h <;> rfl

theorem wf_registerWork_update (s : Registry) (w0 : Work)
    (hw0 : w0.disputeCount = 0) (h : Wf s) :
    ∀ wid, (wid ≤ s.workCounter + 1 →
              ((upd s.works (s.workCounter + 1) w0) wid).disputeCount
                = (s.disputes wid).length)
         ∧ (s.workCounter + 1 < wid → s.disputes wid = []) := by
  intro wid
  constructor
  · intro hle
    by_cases hw : wid = s.workCounter + 1
    · subst hw
      rw [upd_self, hw0, (h (s.workCounter + 1)).2 (by omega)]
      rfl
    · rw [upd_ne _ _ _ _ hw]
      exact (h wid).1 (by omega)
  · intro hgt
    exact (h wid).2 (by omega)

theorem wf_markVerified_update (s : Registry) (wid0 : Nat) (h : Wf s) :
    ∀ wid, (wid ≤ s.workCounter →
              ((upd s.works wid0 { s.works wid0 with verified := true }) wid).disputeCount
                = (s.disputes wid).length)
         ∧ (s.workCounter < wid → s.disputes wid = []) := by
  intro wid
  refine ⟨?_, (h wid).2⟩
  intro hle
  by_cases hw : wid = wid0
  · subst hw
    rw [upd_self]
    exact (h wid).1 hle
  · rw [upd_ne _ _ _ _ hw]
    exact (h wid).1 hle

theorem wf_fileDispute_update (s : Registry) (wid0 : Nat) (d : Dispute)
    (hv : wid0 ≤ s.workCounter) (h : Wf s) :
    ∀ wid, (wid ≤ s.workCounter →
              ((upd s.works wid0 { s.works wid0 with disputeCount := (s.works wid0).disputeCount + 1 }) wid).disputeCount
                = ((upd s.disputes wid0 (s.disputes wid0 ++ [d])) wid).length)
         ∧ (s.workCounter < wid → (upd s.disputes wid0 (s.disputes wid0 ++ [d])) wid = []) := by
  intro wid
  constructor
  · intro hle
    by_cases hw : wid = wid0
    · subst hw
      rw [upd_self, upd_self]
      simp [(h wid).1 hle]
    · rw [upd_ne _ _ _ _ hw, upd_ne _ _ _ _ hw]
      exact (h wid).1 hle
  · intro hgt
    have hne : wid ≠ wid0 := by omega
    rw [upd_ne _ _ _ _ hne]
    exact (h wid).2 hgt

theorem wf_callback_update (s : Registry) (wid0 i0 : Nat) (d1 : Dispute)
    (h : Wf s) :
    ∀ wid, (wid ≤ s.workCounter →
              (s.works wid).disputeCount
                = ((upd s.disputes wid0 ((s.disputes wid0).set i0 d1)) wid).length)
         ∧ (s.workCounter < wid → (upd s.disputes wid0 ((s.disputes wid0).set i0 d1)) wid = []) := by
  intro wid
  constructor
  · intro hle
    by_cases hw : wid = wid0
    · subst hw
      rw [upd_self, List.length_set]
      exact (h wid).1 hle
    · rw [upd_ne _ _ _ _ hw]
      exact (h wid).1 hle
  · intro hgt
    by_cases hw : wid = wid0
    · subst hw
      rw [upd_self, (h wid).2 hgt]
      simp
    · rw [upd_ne _ _ _ _ hw]
      exact (h wid).2 hgt

theorem wf_applyOp (s : Registry) (op : Op) (h : Wf s) : Wf (applyOp s op) := by
  cases op with
  | opRegisterAuthor c aid =>
    simp only [applyOp, registerAuthor]
    split_ifs <;> exact h
  | opRegisterWork c hsh ttl cat tm =>
    simp only [applyOp, registerWork]
    split_ifs <;> try exact h
    exact wf_registerWork_update s _ rfl h
  | opMarkVerified c wid0 =>
    simp only [applyOp, markWorkAsVerified]
    split_ifs <;> try exact h
    exact wf_markVerified_update s wid0 h
  | opFileDispute c wid0 hsh tm =>
    simp only [applyOp, fileDispute]
    split_ifs <;> try exact h
    rename_i h1 h2 h3
    exact wf_fileDispute_update s wid0 _ h2.2 h
  | opResolveDispute c wid0 i0 =>
    simp only [applyOp, resolveDispute]
    split_ifs <;> exact h
  | opCallback wid0 i0 m =>
    simp only [applyOp, resolveDisputeCallback]
    split_ifs <;> try exact h
    all_goals exact wf_callback_update s wid0 i0 _ h

theorem wf_applyOps (s : Registry) (ops : List Op) (h : Wf s) :
    Wf (applyOps s ops) := by
  induction ops generalizing s with
  | nil => exact h
  | cons op rest ih => exact ih _ (wf_applyOp s op h)

theorem wf_reachable (s : Registry) (h : Reachable s) : Wf s := by
  obtain ⟨d, ops, rfl⟩ := h
  exact wf_applyOps _ ops (wf_init d)

/-- Claim C9: getWorkInfo returns a disputed flag beyond the fields the spec
lists: it is false for a work with no disputes, becomes true after any
successful fileDispute on the work, and in every reachable state it holds
exactly when the disputeCount stored on the work is positive. -/
theorem getWorkInfo_disputed_iff_disputeCount_pos
    (s : Registry) (wid : Nat) (info : WorkInfo)
    (hreach : Reachable s)
    (hinfo : getWorkInfo s wid = Except.ok info) :
    (info.disputed = true ↔ 0 < (s.works wid).disputeCount)
    ∧ (getDisputeCount s wid = 0 → info.disputed = false)
    ∧ (∀ c hsh t s1 idx, fileDispute s c wid hsh t = Except.ok (s1, idx) →
        (getWorkInfo s1 wid).map WorkInfo.disputed = Except.ok true) := by
  have hwf := wf_reachable s hreach
  unfold getWorkInfo at hinfo
  split_ifs at hinfo with hnv
  · have hv : validWorkId s wid := hnv
    simp only [Except.ok.injEq] at hinfo
    subst hinfo
    have hcount : (s.works wid).disputeCount = (s.disputes wid).length :=
      (hwf wid).1 hv.2
    refine ⟨?_, ?_, ?_⟩
    · simp [hcount]
    · intro h0
      simp only [getDisputeCount] at h0
      simp [h0]
    · intro c hsh t s1 idx hok
      unfold fileDispute at hok
      split_ifs at hok with g1 g2 g3
      simp only [Except.ok.injEq, Prod.mk.injEq] at hok
      obtain ⟨hs, hidx⟩ := hok
      subst hs
      unfold getWorkInfo
      rw [if_neg (by simp [validWorkId, hv.1, hv.2])]
      simp [upd_self, Except.map]

/-! ### Concrete demonstration states and witnesses -/

/-- The transaction list of the demonstration scenario of the spec: authors
1 and 2 register, author 1 registers work 1. -/
def demoOps : List Op :=
  [ .opRegisterAuthor 1 111111
  , .opRegisterAuthor 2 222222
  , .opRegisterWork 1 42 "Sunrise" "Music" 10 ]

/-- The demonstration state reached by replaying demoOps. -/
def demoS : Registry := applyOps (initRegistry 0) demoOps

/-- The demonstration state after author 2 files a dispute on work 1. -/
def disputedDemoS : Registry := applyOp demoS (.opFileDispute 2 1 42 20)

theorem registerWork_fresh_increasing_id_witness :
    ((demoS.authors 1).registered = true ∧ ¬ "Two" = "" ∧ ¬ "Art" = "")
    ∧ ∃ s1,
        registerWork demoS 1 7 "Two" "Art" 5
          = Except.ok (s1, demoS.workCounter + 1)
        ∧ getTotalWorks s1 = getTotalWorks demoS + 1
        ∧ ¬ validWorkId demoS (demoS.workCounter + 1)
        ∧ validWorkId s1 (demoS.workCounter + 1)
        ∧ (∀ w, validWorkId demoS w → w < demoS.workCounter + 1)
        ∧ (getTotalWorks demoS = 0 → demoS.workCounter + 1 = 1) :=
  ⟨⟨rfl, by decide, by decide⟩,
   registerWork_fresh_increasing_id demoS 1 7 "Two" "Art" 5 rfl (by decide) (by decide)⟩

theorem registerAuthor_at_most_once_witness :
    ((initRegistry 0).authors 1).registered = false
    ∧ ((∃ s1, registerAuthor (initRegistry 0) 1 77 = Except.ok s1)
       ∧ (∀ s1, registerAuthor (initRegistry 0) 1 77 = Except.ok s1 →
           (s1.authors 1).registered = true
           ∧ ∀ ops authorId2,
               registerAuthor (applyOps s1 ops) 1 authorId2
                 = Except.error RegError.AlreadyRegistered
               ∧ ((applyOps s1 ops).authors 1).registered = true)) :=
  ⟨rfl, registerAuthor_at_most_once (initRegistry 0) 1 77 rfl⟩

theorem registerWork_empty_title_TitleRequired_witness :
    (demoS.authors 1).registered = true
    ∧ (registerWork demoS 1 7 "" "Art" 3 = Except.error RegError.TitleRequired
       ∧ applyOp demoS (.opRegisterWork 1 7 "" "Art" 3) = demoS
       ∧ getTotalWorks (applyOp demoS (.opRegisterWork 1 7 "" "Art" 3))
           = getTotalWorks demoS) :=
  ⟨rfl, registerWork_empty_title_TitleRequired demoS 1 7 3 "Art" rfl⟩

theorem fileDispute_increments_counts_witness :
    fileDispute demoS 2 1 42 20 = Except.ok (disputedDemoS, 0)
    ∧ (getDisputeCount disputedDemoS 1 = getDisputeCount demoS 1 + 1
       ∧ (disputedDemoS.authors 2).totalDisputes
           = (demoS.authors 2).totalDisputes + 1
       ∧ (disputedDemoS.authors (demoS.works 1).registrant).totalDisputes
           = (demoS.authors (demoS.works 1).registrant).totalDisputes + 1) :=
  ⟨rfl, fileDispute_increments_counts demoS disputedDemoS 2 1 42 20 0 rfl⟩

theorem dispute_resolved_at_most_once_witness :
    resolvedAt resolvedDemoS 1 0 = true
    ∧ ((∀ ops, resolvedAt (applyOps resolvedDemoS ops) 1 0 = true)
       ∧ (validWorkId resolvedDemoS 1 →
           resolveDispute resolvedDemoS resolvedDemoS.owner 1 0
             = Except.error RegError.AlreadyResolved
           ∧ applyOp resolvedDemoS (.opResolveDispute resolvedDemoS.owner 1 0)
               = resolvedDemoS)) :=
  ⟨rfl, dispute_resolved_at_most_once resolvedDemoS 1 0 rfl⟩

theorem markVerified_nonowner_NotAuthorized_witness :
    (validWorkId demoS 1 ∧ 5 ≠ demoS.owner)
    ∧ (markWorkAsVerified demoS 5 1 = Except.error RegError.NotAuthorized
       ∧ applyOp demoS (.opMarkVerified 5 1) = demoS
       ∧ getWorkInfo (applyOp demoS (.opMarkVerified 5 1)) 1 = getWorkInfo demoS 1
       ∧ ((demoS.works 1).verified = false →
           ((applyOp demoS (.opMarkVerified 5 1)).works 1).verified = false)) :=
  ⟨⟨by decide, by decide⟩,
   markVerified_nonowner_NotAuthorized demoS 5 1 (by decide) (by decide)⟩

theorem fileDispute_own_work_CannotDispute_witness :
    ((demoS.authors 1).registered = true ∧ validWorkId demoS 1
      ∧ (demoS.works 1).registrant = 1)
    ∧ (fileDispute demoS 1 1 9 4 = Except.error RegError.CannotDisputeOwnWork
       ∧ applyOp demoS (.opFileDispute 1 1 9 4) = demoS
       ∧ getDisputeCount (applyOp demoS (.opFileDispute 1 1 9 4)) 1
           = getDisputeCount demoS 1) :=
  ⟨⟨rfl, by decide, rfl⟩,
   fileDispute_own_work_CannotDispute demoS 1 1 9 4 rfl (by decide) rfl⟩

theorem first_dispute_index_zero_witness :
    getDisputeCount demoS 1 = 0
    ∧ fileDispute demoS 2 1 42 20 = Except.ok (disputedDemoS, 0)
    ∧ (0 = 0
       ∧ getDisputeCount disputedDemoS 1 = 1
       ∧ (getDisputeInfo disputedDemoS 1 0).map Dispute.challenger = Except.ok 2
       ∧ (getDisputeInfo disputedDemoS 1 0).map Dispute.resolved = Except.ok false) :=
  ⟨rfl, rfl, first_dispute_index_zero demoS disputedDemoS 2 42 20 0 rfl rfl⟩

theorem getWorkInfo_disputed_iff_disputeCount_pos_witness :
    Reachable demoS
    ∧ getWorkInfo demoS 1 = Except.ok
        { registrant := 1, title := "Sunrise", category := "Music"
          timestamp := 10, verified := false, disputed := false, disputeCount := 0 }
    ∧ (({ registrant := 1, title := "Sunrise", category := "Music"
          timestamp := 10, verified := false, disputed := false
          disputeCount := 0 : WorkInfo }.disputed = true
          ↔ 0 < (demoS.works 1).disputeCount)
       ∧ (getDisputeCount demoS 1 = 0 →
           ({ registrant := 1, title := "Sunrise", category := "Music"
              timestamp := 10, verified := false, disputed := false
              disputeCount := 0 : WorkInfo }).disputed = false)
       ∧ (∀ c hsh t s1 idx, fileDispute demoS c 1 hsh t = Except.ok (s1, idx) →
           (getWorkInfo s1 1).map WorkInfo.disputed = Except.ok true)) :=
  ⟨⟨0, demoOps, rfl⟩, rfl,
   getWorkInfo_disputed_iff_disputeCount_pos demoS 1
     { registrant := 1, title := "Sunrise", category := "Music"
       timestamp := 10, verified := false, disputed := false, disputeCount := 0 }
     ⟨0, demoOps, rfl⟩ rfl⟩

/-- The demonstration state after registering a work whose title and
category contain special characters. -/
def specialS : Registry :=
  applyOp demoS
    (.opRegisterWork 1 700 "My Work: The Sequel (2024) - Edition #1" "Art & Design" 9)

theorem registerWork_title_category_roundtrip_witness :
    registerWork demoS 1 700 "My Work: The Sequel (2024) - Edition #1" "Art & Design" 9
      = Except.ok (specialS, 2)
    ∧ ((getWorkInfo specialS 2).map WorkInfo.title
         = Except.ok "My Work: The Sequel (2024) - Edition #1"
       ∧ (getWorkInfo specialS 2).map WorkInfo.category
         = Except.ok "Art & Design") :=
  ⟨rfl, registerWork_title_category_roundtrip demoS specialS 1 700 9 2
     "My Work: The Sequel (2024) - Edition #1" "Art & Design" rfl⟩
